import Mathlib

/-!
Verification of the chadtree tree-state engine transitions
(`rplugin/python3/chadtree/transitions.py`) against its specification.

Paths are modelled as lists of components (an absolute, canonical path is
the list of its segments; the filesystem root is `[]`).  Sets of paths are
`Finset Path`.  Collaborator calls (filesystem existence tests, the nvim
prompt/confirm dialogs, the quickfix and search collaborators) are passed in
as explicit oracle parameters, and each transition returns a result record
carrying the messages it printed, which collaborators it invoked, the deltas
it handed to `forward`, and the returned `Stage`, so that theorems can speak
about the observable behaviour of the source functions.
-/

namespace Chad

abbrev Path := List String

/-- Modelled from the spec: `os.path.dirname` / the parent of an absolute
canonical path (the path-manipulation helpers of `fs.py` are not among the
provided sources).  Dropping the last component of the component list. -/
def dirname (p : Path) : Path := p.dropLast

/-- Modelled from the spec: `fs.ancestors` (not among the provided sources) —
the proper ancestors of a path, outermost first. -/
def ancestors (p : Path) : List Path :=
  (List.range p.length).map (fun n => p.take n)

/-- Modelled from the spec: `fs.is_parent` (not among the provided sources) —
whether `child` lies strictly below the directory `parent`, i.e. `parent`
is a proper ancestor of `child`. -/
def is_parent (parent child : Path) : Bool :=
  parent.isPrefixOf child && parent != child

/-- Node mode flags, from `types.Mode` as used by `transitions.py`
(spec §3: a capability/variant set). -/
inductive Mode where
  | file
  | folder
  | symlink
  | orphan_link
  | executable
deriving DecidableEq

/-- One filesystem entry (spec §3).  The `children` mapping is omitted:
it is derived data recomputed by the cartographer and no transition in
`transitions.py` reads it; the transitions only inspect `path`, `name`,
`mode` and `ext`. -/
structure Node where
  path : Path
  name : String
  mode : Finset Mode
deriving DecidableEq

/-- Filter state, from `types.FilterPattern` (spec §3). -/
structure FilterPattern where
  pattern : String
  search_set : Finset Path
deriving DecidableEq

/-- Quickfix overlay, from `types.QuickFix` (spec §3); `locations` is kept
as the fetched sequence, only its paths and emptiness matter here. -/
structure QuickFix where
  locations : List Path
  filtering : Bool
deriving DecidableEq

/-- The authoritative engine state, from `types.State` (spec §3).  The
derived `paths_lookup` and the rescanned tree under `root` are recomputed
view data (spec §4.2 steps 2-4) that no claim below inspects, so they are
not carried in the model; every scalar field that the claims touch is. -/
structure State where
  root : Node
  index : Finset Path
  selection : Finset Path
  filter_pattern : FilterPattern
  qf : QuickFix
  vc : List (Path × String)
  current : Option Path
  follow : Bool
  enable_vc : Bool
  show_hidden : Bool
  width : Int
deriving DecidableEq

/-- The partial update handed to `state.forward` (spec §4.2): any subset of
the scalar fields, plus the `paths` invalidation set that marks which
subtrees must be rescanned. -/
structure Deltas where
  index : Option (Finset Path) := none
  selection : Option (Finset Path) := none
  filter_pattern : Option FilterPattern := none
  qf : Option QuickFix := none
  vc : Option (List (Path × String)) := none
  current : Option (Option Path) := none
  width : Option Int := none
  paths : Finset Path := ∅

/-- Modelled from the spec: `state.forward` (`state.py` is not among the
provided sources).  Per §4.2 step 1 the supplied deltas are merged into a
copy of the old state and the unsupplied fields carry over; steps 2-4
re-derive the scanned tree and `paths_lookup` for the subtrees named in
`d.paths`, derived data that the modelled `State` does not carry, so the
merge is the whole of the modelled transition.  The new state is a fresh
value; the old state is never mutated (§4.2 step 5). -/
def forward (s : State) (d : Deltas) : State :=
  { s with
    index := d.index.getD s.index
    selection := d.selection.getD s.selection
    filter_pattern := d.filter_pattern.getD s.filter_pattern
    qf := d.qf.getD s.qf
    vc := d.vc.getD s.vc
    current := d.current.getD s.current
    width := d.width.getD s.width }

/-- One `print(nvim, text, error=...)` call from `nvim.print`. -/
structure Msg where
  text : String
  error : Bool
deriving DecidableEq

/-- Result of a successful action, from `types.Stage`: the new state plus an
optional focus path. -/
structure Stage where
  state : State
  focus : Option Path := none
deriving DecidableEq

/-- Click types, from `types.ClickType`. -/
inductive ClickType where
  | primary
  | secondary
  | tertiary
  | v_split
  | h_split
deriving DecidableEq

/-- Embedding of `transitions._is_filtering` (transitions.py lines 352-353):
`len(filter_pattern.pattern) > 0 and len(filter_pattern.search_set) > 0`. -/
def _is_filtering (filter_pattern : FilterPattern) : Bool :=
  decide (filter_pattern.pattern.length > 0) &&
    decide (filter_pattern.search_set.card > 0)

/-- Environment of a refresh: the filesystem existence oracle (`os.path.exists`
via `run_in_executor`), the current buffer name (`[]` when none), and the
results of the quickfix and version-control collaborators. -/
structure RefreshEnv where
  fsExists : Path → Bool
  current : Path
  locations : List Path
  vc : List (Path × String)

/-- Observable outcome of `c_refresh`: the printed messages, the `index` and
`selection` arguments passed to `forward`, and the returned stage. -/
structure RefreshResult where
  msgs : List Msg
  index_delta : Finset Path
  selection_delta : Finset Path
  stage : Stage
deriving DecidableEq

/-- Embedding of `transitions.c_refresh` (transitions.py lines 356-400).
The prompt messages are recorded; `run_in_executor`/`gather` are collapsed
into direct evaluation of the oracles. -/
def c_refresh (env : RefreshEnv) (s : State) (write : Bool) : RefreshResult :=
  let msgs0 : List Msg := if write then [⟨"busy", false⟩] else []
  let cwd := s.root.path
  let paths : Finset Path := {cwd}
  let new_current : Option Path :=
    if is_parent cwd env.current then some env.current else none
  let index := s.index.filter (fun i => env.fsExists i = true) ∪ paths
  let selection :=
    if _is_filtering s.filter_pattern then (∅ : Finset Path)
    else s.selection.filter (fun x => env.fsExists x = true)
  let current_paths : Finset Path :=
    if s.follow then (ancestors env.current).toFinset else ∅
  let new_index := if new_current.isSome then index else index ∪ current_paths
  let qf : QuickFix := ⟨env.locations, s.qf.filtering⟩
  let new_state := forward s
    { index := some new_index
      selection := some selection
      qf := some qf
      vc := some env.vc
      paths := paths
      current := new_current.map (fun c => some c) }
  let msgs1 := if write then msgs0 ++ [⟨"done", false⟩] else msgs0
  ⟨msgs1, new_index, selection, ⟨new_state, none⟩⟩

/-- Observable outcome of a click: the printed messages and the optional
returned stage. -/
structure ClickResult where
  msgs : List Msg
  stage : Option Stage
deriving DecidableEq

/-- Embedding of `transitions.c_click` (transitions.py lines 230-289).
`node` is the result of the `_index` cursor lookup; `ans` collapses the
mime-type confirmation dialogue (including the branch that skips the
question and proceeds with `True`); `click_type` only drives the window
placement of `show_file`, which is a view effect outside the state. -/
def c_click (s : State) (node : Option Node) (ans : Bool)
    (click_type : ClickType) : ClickResult :=
  match node with
  | none => ⟨[], none⟩
  | some n =>
    if Mode.orphan_link ∈ n.mode then
      ⟨[⟨"cannot open dead link", true⟩], none⟩
    else if Mode.folder ∈ n.mode then
      if s.filter_pattern.pattern ≠ "" ∨ s.filter_pattern.search_set ≠ ∅ then
        ⟨[⟨"cannot click on folders while filtering or searching", false⟩],
          none⟩
      else
        let paths : Finset Path := {n.path}
        let index := symmDiff s.index paths
        ⟨[], some ⟨forward s { index := some index, paths := paths }, none⟩⟩
    else
      if ans then
        ⟨[], some ⟨forward s { current := some (some n.path) }, none⟩⟩
      else
        ⟨[], none⟩

/-- Embedding of `transitions.c_select` (transitions.py lines 616-631);
`nodes` is the `_indices` cursor/visual-range lookup, of which the
non-visual branch consumes only the first element.  Python's `^` on sets
is symmetric difference. -/
def c_select (s : State) (is_visual : Bool) (nodes : List Node) :
    Option Stage :=
  if is_visual then
    let selection := symmDiff s.selection (nodes.map Node.path).toFinset
    some ⟨forward s { selection := some selection }, none⟩
  else
    match nodes.head? with
    | some n =>
      let selection := symmDiff s.selection {n.path}
      some ⟨forward s { selection := some selection }, none⟩
    | none => none

/-- Observable outcome of `c_toggle_qf_filtering`. -/
structure ToggleQfResult where
  msgs : List Msg
  stage : Stage
deriving DecidableEq

/-- Embedding of `transitions.c_toggle_qf_filtering` (transitions.py lines
438-447); `locations` is the freshly fetched quickfix list. -/
def c_toggle_qf_filtering (s : State) (locations : List Path) :
    ToggleQfResult :=
  let filtering := if locations.isEmpty then false else !s.qf.filtering
  let qf : QuickFix := ⟨locations, filtering⟩
  let new_state := forward s { qf := some qf }
  if locations.isEmpty then
    ⟨[⟨"quickfix list empty", true⟩], ⟨new_state, none⟩⟩
  else
    ⟨[⟨"enable quickfix filtering", false⟩], ⟨new_state, none⟩⟩

/-- Observable outcome of `c_resize`: the width handed to `forward` and the
returned stage. -/
structure ResizeResult where
  width_delta : Int
  stage : Stage
deriving DecidableEq

/-- Embedding of `transitions.c_resize` (transitions.py lines 217-227);
`direction` is the `operator.add` / `operator.sub` callable that
`Main.bigger` / `Main.smaller` pass in. -/
def c_resize (s : State) (direction : Int → Int → Int) : ResizeResult :=
  let width := max (direction s.width 10) 1
  ⟨width, ⟨forward s { width := some width }, none⟩⟩

/-- The collapse target of a node (transitions.py line 319): the node's own
path for folders, its parent directory otherwise. -/
def collapse_target (n : Node) : Path :=
  if Mode.folder ∈ n.mode then n.path else dirname n.path

/-- Embedding of `transitions.c_collapse` (transitions.py lines 316-342);
`node` is the `_index` cursor lookup.  The cursor repositioning through
`paths_lookup` is a view effect outside the state. -/
def c_collapse (s : State) (node : Option Node) : Option Stage :=
  match node with
  | none => none
  | some n =>
    let path := collapse_target n
    if path ≠ s.root.path then
      let paths := s.index.filter (fun i => i = path ∨ is_parent path i = true)
      let index := s.index \ paths
      some ⟨forward s { index := some index, paths := paths }, none⟩
    else
      none

/-- Modelled from the spec: `state.is_dir` (`state.py` is not among the
provided sources); spec §9 names the underlying check
`Mode.folder in node.mode`. -/
def is_dir (n : Node) : Bool := Mode.folder ∈ n.mode

/-- Modelled from the spec: `fs.unify_ancestors` (not among the provided
sources) — reduce a path set to its ancestor-minimal members, keeping
exactly the paths that have no proper ancestor in the set, so that the
mutating operations act once per disjoint subtree. -/
def unify_ancestors (paths : Finset Path) : Finset Path :=
  paths.filter (fun p => ∀ q ∈ paths, is_parent q p = false)

/-- Observable outcome of a mutating action (`c_new`, `c_rename`,
`_delete`): messages, whether the mutating filesystem collaborator was
invoked, whether the action fell back to `c_refresh`, and the stage. -/
structure MutResult where
  msgs : List Msg
  mutation_called : Bool
  refreshed : Bool
  stage : Option Stage
deriving DecidableEq

/-- Embedding of `transitions.c_new` (transitions.py lines 530-560).
`node` is the `_index` lookup (`state.root` when absent), `child` the
prompt reply split into components (`none`/`[]` for a cancelled or empty
reply, matching Python falsiness), `mutOk` whether the `fs.new`
collaborator succeeds.  `renv.fsExists` plays `fs_exists` and also feeds
the fallback refresh. -/
def c_new (renv : RefreshEnv) (s : State) (node : Option Node)
    (child : Option Path) (mutOk : Bool) : MutResult :=
  let n := node.getD s.root
  let parent := if is_dir n then n.path else dirname n.path
  match child with
  | none => ⟨[], false, false, none⟩
  | some c =>
    if c = [] then ⟨[], false, false, none⟩
    else
      let name := parent ++ c
      if renv.fsExists name then
        ⟨[⟨"Exists", true⟩], false, false, some ⟨s, none⟩⟩
      else if mutOk then
        let paths := (ancestors name).toFinset
        let index := s.index ∪ paths
        ⟨[], true, false,
          some ⟨forward s { index := some index, paths := paths }, none⟩⟩
      else
        let r := c_refresh renv s false
        ⟨⟨"mutation failed", true⟩ :: r.msgs, true, true, some r.stage⟩

/-- Embedding of `transitions.c_rename` (transitions.py lines 563-603).
`child` is the prompt reply (a path relative to the root) in components;
`mutOk` whether the `fs.rename` collaborator succeeds.  The
`kill_buffers` call on success is an editor effect outside the state. -/
def c_rename (renv : RefreshEnv) (s : State) (node : Option Node)
    (child : Option Path) (mutOk : Bool) : MutResult :=
  match node with
  | none => ⟨[], false, false, none⟩
  | some _n =>
    let parent := s.root.path
    match child with
    | none => ⟨[], false, false, none⟩
    | some c =>
      if c = [] then ⟨[], false, false, none⟩
      else
        let new_name := parent ++ c
        let new_parent := dirname new_name
        if renv.fsExists new_name then
          ⟨[⟨"Exists", true⟩], false, false, some ⟨s, none⟩⟩
        else if mutOk then
          let paths :=
            ({parent, new_parent} : Finset Path) ∪
              (ancestors new_parent).toFinset
          let index := s.index ∪ paths
          ⟨[], true, false,
            some ⟨forward s { index := some index, paths := paths }, none⟩⟩
        else
          let r := c_refresh renv s false
          ⟨⟨"mutation failed", true⟩ :: r.msgs, true, true, some r.stage⟩

/-- Embedding of `transitions._delete` (transitions.py lines 634-676), the
common body of `c_delete` and `c_trash`.  `nodes` is the `_indices`
lookup used when the selection is empty, `ans` the confirmation dialogue,
`yeetOk` whether the `remove`/`trash` collaborator succeeds. -/
def _delete (renv : RefreshEnv) (s : State) (nodes : List Node) (ans : Bool)
    (yeetOk : Bool) : MutResult :=
  let selection :=
    if s.selection ≠ ∅ then s.selection else (nodes.map Node.path).toFinset
  let unified := unify_ancestors selection
  if unified ≠ ∅ then
    if ans then
      if yeetOk then
        let paths := unified.image dirname
        ⟨[], true, false,
          some ⟨forward s { selection := some ∅, paths := paths }, none⟩⟩
      else
        let r := c_refresh renv s false
        ⟨⟨"deletion failed", true⟩ :: r.msgs, true, true, some r.stage⟩
    else ⟨[], false, false, none⟩
  else ⟨[], false, false, none⟩

lemma is_parent_iff {a b : Path} : is_parent a b = true ↔ a <+: b ∧ a ≠ b := by
  simp [is_parent]

lemma is_parent_length_lt {a b : Path} (h : is_parent a b = true) :
    a.length < b.length := by
  obtain ⟨hp, hne⟩ := is_parent_iff.mp h
  exact Nat.lt_of_le_of_ne hp.length_le (fun he => hne (hp.eq_of_length he))

lemma is_parent_asymm {a b : Path} (h1 : is_parent a b = true)
    (h2 : is_parent b a = true) : False :=
  absurd (is_parent_length_lt h2) (Nat.lt_asymm (is_parent_length_lt h1))

lemma is_parent_dirname {r c : Path} (h : is_parent r c = true)
    (hne : dirname c ≠ r) : is_parent r (dirname c) = true := by
  obtain ⟨hp, _⟩ := is_parent_iff.mp h
  have hlt : r.length < c.length := is_parent_length_lt h
  have hdp : dirname c <+: c := List.dropLast_prefix c
  have hlen : r.length ≤ (dirname c).length := by
    have hd : (dirname c).length = c.length - 1 := by
      simp [dirname]
    omega
  exact is_parent_iff.mpr
    ⟨List.prefix_of_prefix_length_le hp hdp hlen, fun he => hne he.symm⟩

/-- A nonempty path set keeps at least one member (one of minimal length)
after ancestor unification. -/
lemma unify_ancestors_nonempty {s : Finset Path} (h : s ≠ ∅) :
    unify_ancestors s ≠ ∅ := by
  obtain ⟨p, hp, hmin⟩ :=
    s.exists_min_image (fun q => q.length) (Finset.nonempty_iff_ne_empty.mpr h)
  refine Finset.ne_empty_of_mem (a := p) ?_
  refine Finset.mem_filter.mpr ⟨hp, fun q hq => ?_⟩
  by_contra hb
  have hqt : is_parent q p = true := by
    cases hc : is_parent q p with
    | false => exact absurd hc hb
    | true => rfl
  exact absurd (hmin q hq) (Nat.not_le.mpr (is_parent_length_lt hqt))

/-- A base state used by the concrete witnesses and counterexamples. -/
def baseState : State :=
  { root := ⟨["r"], "r", {Mode.folder}⟩
    index := {["r"]}
    selection := ∅
    filter_pattern := ⟨"", ∅⟩
    qf := ⟨[], false⟩
    vc := []
    current := none
    follow := false
    enable_vc := false
    show_hidden := false
    width := 40 }

/-- A refresh environment in which every path exists and the collaborators
return empty results. -/
def allExistEnv : RefreshEnv := ⟨fun _ => true, [], [], []⟩

/-- C9: for both resize directions the width handed to `forward` is
`max (old_width ± 10, 1)`, hence always at least 1, and it is the width of
the resulting state. -/
theorem c9_resize_width (s : State) :
    (c_resize s (fun a b => a + b)).width_delta = max (s.width + 10) 1 ∧
    (c_resize s (fun a b => a - b)).width_delta = max (s.width - 10) 1 ∧
    1 ≤ (c_resize s (fun a b => a + b)).width_delta ∧
    1 ≤ (c_resize s (fun a b => a - b)).width_delta ∧
    (c_resize s (fun a b => a + b)).stage.state.width =
      max (s.width + 10) 1 ∧
    (c_resize s (fun a b => a - b)).stage.state.width =
      max (s.width - 10) 1 := by
  refine ⟨rfl, rfl, ?_, ?_, ?_, ?_⟩ <;> simp [c_resize, forward]

/-- C9 witness: the theorem instantiated at a concrete state. -/
theorem c9_resize_width_witness :
    (c_resize baseState (fun a b => a + b)).width_delta =
      max (baseState.width + 10) 1 ∧
    (c_resize baseState (fun a b => a - b)).width_delta =
      max (baseState.width - 10) 1 ∧
    1 ≤ (c_resize baseState (fun a b => a + b)).width_delta ∧
    1 ≤ (c_resize baseState (fun a b => a - b)).width_delta ∧
    (c_resize baseState (fun a b => a + b)).stage.state.width =
      max (baseState.width + 10) 1 ∧
    (c_resize baseState (fun a b => a - b)).stage.state.width =
      max (baseState.width - 10) 1 :=
  c9_resize_width baseState

/-- C10: clicking a node whose mode contains `orphan_link` reports an error
and returns no stage, for every state, answer and click type. -/
theorem c10_orphan_click_rejected (s : State) (n : Node) (ans : Bool)
    (ct : ClickType) (h : Mode.orphan_link ∈ n.mode) :
    (c_click s (some n) ans ct).stage = none ∧
    (c_click s (some n) ans ct).msgs = [⟨"cannot open dead link", true⟩] := by
  simp [c_click, h]

/-- C10 witness: the theorem applied to a concrete dead-link node. -/
theorem c10_orphan_click_witness :
    (c_click baseState
        (some ⟨["r", "l"], "l", {Mode.orphan_link}⟩) true
        ClickType.primary).stage = none ∧
    (c_click baseState
        (some ⟨["r", "l"], "l", {Mode.orphan_link}⟩) true
        ClickType.primary).msgs = [⟨"cannot open dead link", true⟩] :=
  c10_orphan_click_rejected baseState ⟨["r", "l"], "l", {Mode.orphan_link}⟩
    true ClickType.primary (by decide)

/-- C5: clicking a folder node while the filter pattern or the search set is
non-empty reports a message and returns no stage, for every state, answer
and click type (the dead-link branch also reports and returns no stage). -/
theorem c5_folder_click_while_filtering_noop (s : State) (n : Node)
    (ans : Bool) (ct : ClickType) (hf : Mode.folder ∈ n.mode)
    (hp : s.filter_pattern.pattern ≠ "" ∨ s.filter_pattern.search_set ≠ ∅) :
    (c_click s (some n) ans ct).stage = none ∧
    (c_click s (some n) ans ct).msgs ≠ [] := by
  by_cases ho : Mode.orphan_link ∈ n.mode
  · simp [c_click, ho]
  · simp [c_click, ho, hf, hp]

/-- C5 witness: the theorem applied to a folder node in a state with a
non-empty filter pattern. -/
theorem c5_folder_click_witness :
    (c_click { baseState with filter_pattern := ⟨"a", ∅⟩ }
        (some ⟨["r", "d"], "d", {Mode.folder}⟩) true
        ClickType.primary).stage = none ∧
    (c_click { baseState with filter_pattern := ⟨"a", ∅⟩ }
        (some ⟨["r", "d"], "d", {Mode.folder}⟩) true
        ClickType.primary).msgs ≠ [] :=
  c5_folder_click_while_filtering_noop
    { baseState with filter_pattern := ⟨"a", ∅⟩ }
    ⟨["r", "d"], "d", {Mode.folder}⟩ true ClickType.primary (by decide)
    (by decide)

/-- C6: toggling the same path (or, in visual mode, the same set of paths)
into and out of the selection twice restores the original selection set. -/
theorem c6_select_xor_involutive (s : State) (iv : Bool) (nodes : List Node)
    (st1 st2 : Stage) (h1 : c_select s iv nodes = some st1)
    (h2 : c_select st1.state iv nodes = some st2) :
    st2.state.selection = s.selection := by
  cases iv with
  | true =>
    simp only [c_select, if_true] at h1 h2
    obtain rfl := Option.some.inj h1
    obtain rfl := Option.some.inj h2
    simp [forward, symmDiff_symmDiff_cancel_right]
  | false =>
    cases hh : nodes.head? with
    | none => simp [c_select, hh] at h1
    | some n =>
      simp only [c_select, Bool.false_eq_true, if_false, hh] at h1 h2
      obtain rfl := Option.some.inj h1
      obtain rfl := Option.some.inj h2
      simp [forward, symmDiff_symmDiff_cancel_right]

/-- Intermediate stage of the C6 witness: the base state with one path
XOR-selected in. -/
def c6Stage1 : Stage :=
  ⟨{ baseState with selection := {["r", "x"]} }, none⟩

/-- Final stage of the C6 witness: the same path XOR-selected back out. -/
def c6Stage2 : Stage :=
  ⟨{ baseState with selection := ∅ }, none⟩

/-- C6 witness: the theorem applied to a concrete double toggle. -/
theorem c6_select_xor_witness :
    c_select baseState false [⟨["r", "x"], "x", {Mode.file}⟩] =
      some c6Stage1 ∧
    c_select c6Stage1.state false [⟨["r", "x"], "x", {Mode.file}⟩] =
      some c6Stage2 ∧
    c6Stage2.state.selection = baseState.selection :=
  ⟨by decide, by decide,
    c6_select_xor_involutive baseState false
      [⟨["r", "x"], "x", {Mode.file}⟩] c6Stage1 c6Stage2 (by decide)
      (by decide)⟩

/-- C2 amended: toggling quickfix filtering when the freshly fetched
quickfix list is empty reports an error and leaves `qf.filtering` false;
the state is unchanged except that its `qf` field is replaced by the
fetched empty list with `filtering := false`. -/
theorem c2_toggle_qf_empty_reports (s : State) (locations : List Path)
    (h : locations = []) :
    (∃ m ∈ (c_toggle_qf_filtering s locations).msgs, m.error = true) ∧
    (c_toggle_qf_filtering s locations).stage.state.qf = ⟨[], false⟩ ∧
    (c_toggle_qf_filtering s locations).stage.state =
      { s with qf := ⟨[], false⟩ } := by
  subst h
  refine ⟨⟨⟨"quickfix list empty", true⟩, ?_, rfl⟩, ?_, ?_⟩ <;>
    simp [c_toggle_qf_filtering, forward]

/-- C2 witness: the amended theorem applied to a concrete state whose
quickfix filtering flag is on when the list comes back empty. -/
theorem c2_toggle_qf_empty_witness :
    (∃ m ∈ (c_toggle_qf_filtering { baseState with qf := ⟨[], true⟩ }
        []).msgs, m.error = true) ∧
    (c_toggle_qf_filtering { baseState with qf := ⟨[], true⟩ }
        []).stage.state.qf = ⟨[], false⟩ ∧
    (c_toggle_qf_filtering { baseState with qf := ⟨[], true⟩ }
        []).stage.state =
      { { baseState with qf := ⟨[], true⟩ } with qf := ⟨[], false⟩ } :=
  c2_toggle_qf_empty_reports { baseState with qf := ⟨[], true⟩ } [] rfl

/-- C2 counterexample: with the quickfix filtering flag on and an empty
fetched list, the action does not leave the state unchanged — the flag is
forced off, so the resulting state differs from the input state. -/
theorem c2_toggle_qf_empty_changes_state :
    (c_toggle_qf_filtering { baseState with qf := ⟨[], true⟩ }
        []).stage.state ≠ { baseState with qf := ⟨[], true⟩ } := by
  decide

/-- Concrete state for C1: a non-empty filter pattern, an empty search set
and a non-empty selection, all of whose paths exist. -/
def c1State : State :=
  { baseState with
    filter_pattern := ⟨"a", ∅⟩
    selection := {["r", "x"]} }

/-- C1: the claim's filtering condition (non-empty pattern or non-empty
search set) holds at `c1State`, yet `c_refresh` passes the still-populated
selection to `forward` instead of the empty set, because
`_is_filtering` tests `pattern AND search_set` where the spec's filtering
mode (and `c_click`'s own test) is `pattern OR search_set`. -/
theorem c1_refresh_pattern_only_retains_selection :
    (c1State.filter_pattern.pattern ≠ "" ∨
      c1State.filter_pattern.search_set ≠ ∅) ∧
    _is_filtering c1State.filter_pattern = false ∧
    (c_refresh allExistEnv c1State false).selection_delta =
      ({["r", "x"]} : Finset Path) ∧
    (c_refresh allExistEnv c1State false).stage.state.selection =
      ({["r", "x"]} : Finset Path) := by
  refine ⟨Or.inl ?_, ?_, ?_, ?_⟩ <;> decide

/-- C3: when the destination path already exists, both the create and the
rename action report an error, never call the mutating filesystem
collaborator, and return a stage carrying the input state unchanged. -/
theorem c3_existing_destination_aborts (renv : RefreshEnv) (s : State)
    (node : Option Node) (n : Node) (c : Path) (mutOk : Bool) (hc : c ≠ [])
    (hnew : renv.fsExists
      ((if is_dir (node.getD s.root) then (node.getD s.root).path
        else dirname (node.getD s.root).path) ++ c) = true)
    (hren : renv.fsExists (s.root.path ++ c) = true) :
    c_new renv s node (some c) mutOk =
      ⟨[⟨"Exists", true⟩], false, false, some ⟨s, none⟩⟩ ∧
    c_rename renv s (some n) (some c) mutOk =
      ⟨[⟨"Exists", true⟩], false, false, some ⟨s, none⟩⟩ := by
  constructor
  · simp [c_new, hc, hnew]
  · simp [c_rename, hc, hren]

/-- C3 witness: the theorem applied with an everything-exists filesystem. -/
theorem c3_existing_destination_witness :
    c_new allExistEnv baseState none (some ["y"]) true =
      ⟨[⟨"Exists", true⟩], false, false, some ⟨baseState, none⟩⟩ ∧
    c_rename allExistEnv baseState
        (some ⟨["r", "x"], "x", {Mode.file}⟩) (some ["y"]) true =
      ⟨[⟨"Exists", true⟩], false, false, some ⟨baseState, none⟩⟩ :=
  c3_existing_destination_aborts allExistEnv baseState none
    ⟨["r", "x"], "x", {Mode.file}⟩ ["y"] true (by decide) rfl rfl

/-- C4 amended: when the delete collaborator fails, the error is reported
and the action falls back to the full refresh transition; a selected path
that still exists remains in the selection after that refresh provided the
state is not in `_is_filtering` mode (a filtering refresh clears the
selection instead). -/
theorem c4_failed_delete_refreshes (renv : RefreshEnv) (s : State)
    (nodes : List Node) (hsel : s.selection ≠ ∅) :
    (∃ m ∈ (_delete renv s nodes true false).msgs, m.error = true) ∧
    (_delete renv s nodes true false).refreshed = true ∧
    (_delete renv s nodes true false).stage =
      some (c_refresh renv s false).stage ∧
    (_is_filtering s.filter_pattern = false →
      ∀ p ∈ s.selection, renv.fsExists p = true →
        p ∈ (c_refresh renv s false).stage.state.selection) := by
  have huni : unify_ancestors s.selection ≠ ∅ := unify_ancestors_nonempty hsel
  refine ⟨?_, ?_, ?_, ?_⟩
  · exact ⟨⟨"deletion failed", true⟩, by simp [_delete, hsel, huni], rfl⟩
  · simp [_delete, hsel, huni]
  · simp [_delete, hsel, huni]
  · intro hfilt p hp hex
    simp [c_refresh, forward, hfilt, Finset.mem_filter, hp, hex]

/-- Concrete state for the C4 witness: one selected, existing path and no
filtering. -/
def c4PlainState : State := { baseState with selection := {["r", "x"]} }

/-- C4 witness: the amended theorem applied concretely — the failed delete
falls back to the refresh, and the surviving path is still selected. -/
theorem c4_failed_delete_witness :
    (∃ m ∈ (_delete allExistEnv c4PlainState [] true false).msgs,
      m.error = true) ∧
    (_delete allExistEnv c4PlainState [] true false).refreshed = true ∧
    (_delete allExistEnv c4PlainState [] true false).stage =
      some (c_refresh allExistEnv c4PlainState false).stage ∧
    (_is_filtering c4PlainState.filter_pattern = false →
      ∀ p ∈ c4PlainState.selection, allExistEnv.fsExists p = true →
        p ∈ (c_refresh allExistEnv c4PlainState
          false).stage.state.selection) :=
  c4_failed_delete_refreshes allExistEnv c4PlainState [] (by decide)

/-- Concrete state for the C4 counterexample: filtering (non-empty pattern
and search set) with one selected, existing path. -/
def c4FilteringState : State :=
  { baseState with
    filter_pattern := ⟨"a", {["r", "q"]}⟩
    selection := {["r", "x"]} }

/-- C4 counterexample: with the view filtering, a failed delete of the
still-existing selected path ends in a refresh whose selection is empty —
the path does not remain selected, contrary to the claim. -/
theorem c4_failed_delete_drops_selection_when_filtering :
    (["r", "x"] : Path) ∈ c4FilteringState.selection ∧
    allExistEnv.fsExists ["r", "x"] = true ∧
    ((_delete allExistEnv c4FilteringState [] true false).stage.map
      (fun st => st.state.selection)) = some ∅ := by
  refine ⟨?_, ?_, ?_⟩ <;> decide

/-- C7: collapsing a node whose target path differs from the root hands
`forward` the old index minus exactly the target and its descendants, and
never removes the root; collapsing the root itself is a no-op returning no
stage.  The hypotheses record that the node lies in the tree rooted at
`s.root` and that a node occupying the root path is a folder. -/
theorem c7_collapse_root_safe (s : State) (n : Node)
    (h1 : n.path = s.root.path ∨ is_parent s.root.path n.path = true)
    (h2 : Mode.folder ∉ n.mode → n.path ≠ s.root.path) :
    (collapse_target n = s.root.path → c_collapse s (some n) = none) ∧
    (collapse_target n ≠ s.root.path →
      ∃ st, c_collapse s (some n) = some st ∧
        (∀ i, i ∈ st.state.index ↔
          i ∈ s.index ∧
            ¬(i = collapse_target n ∨
              is_parent (collapse_target n) i = true)) ∧
        (s.root.path ∈ s.index → s.root.path ∈ st.state.index)) := by
  constructor
  · intro he
    simp [c_collapse, he]
  · intro hne
    have hroot_below : is_parent s.root.path (collapse_target n) = true := by
      by_cases hfold : Mode.folder ∈ n.mode
      · have ht : collapse_target n = n.path := by
          simp [collapse_target, hfold]
        rcases h1 with he | hp
        · exact absurd (ht.trans he) hne
        · exact ht ▸ hp
      · have ht : collapse_target n = dirname n.path := by
          simp [collapse_target, hfold]
        rcases h1 with he | hp
        · exact absurd he (h2 hfold)
        · exact ht ▸ is_parent_dirname hp (ht ▸ hne)
    refine ⟨⟨forward s
      { index := some (s.index \ s.index.filter
          (fun i => i = collapse_target n ∨
            is_parent (collapse_target n) i = true))
        paths := s.index.filter
          (fun i => i = collapse_target n ∨
            is_parent (collapse_target n) i = true) }, none⟩, ?_, ?_, ?_⟩
    · simp [c_collapse, hne]
    · intro i
      simp only [forward, Option.getD_some, Finset.mem_sdiff,
        Finset.mem_filter]
      tauto
    · intro hmem
      simp only [forward, Option.getD_some, Finset.mem_sdiff,
        Finset.mem_filter]
      refine ⟨hmem, ?_⟩
      rintro ⟨-, he | hp⟩
      · exact hne he.symm
      · exact is_parent_asymm hroot_below hp

/-- Concrete state for the C7 witness: the root with an expanded subtree. -/
def c7State : State :=
  { baseState with index := {["r"], ["r", "a"], ["r", "a", "b"]} }

/-- Concrete node for the C7 witness: the expanded folder `r/a`. -/
def c7Node : Node := ⟨["r", "a"], "a", {Mode.folder}⟩

/-- C7 witness: the theorem applied to collapsing `r/a` — the folder and
its descendant leave the index while the root stays. -/
theorem c7_collapse_witness :
    ∃ st, c_collapse c7State (some c7Node) = some st ∧
      (["r", "a"] : Path) ∉ st.state.index ∧
      (["r", "a", "b"] : Path) ∉ st.state.index ∧
      (["r"] : Path) ∈ st.state.index := by
  obtain ⟨st, hcc, hiff, hroot⟩ :=
    (c7_collapse_root_safe c7State c7Node (Or.inr (by decide))
      (by decide)).2 (by decide)
  refine ⟨st, hcc, ?_, ?_, hroot (by decide)⟩
  · intro hmem
    exact ((hiff _).mp hmem).2 (Or.inl (by decide))
  · intro hmem
    exact ((hiff _).mp hmem).2 (Or.inr (by decide))

end Chad
